import Mathlib

/-!
# Mesh Rider Wave — PTT audio transport core, shallow embedding

A shallow embedding in Lean 4 of the transport core of the repository
(`app/src/main/cpp/ptt`): the RTP jitter buffer, the RTP packetizer
state machine, the Opus codec adapter configuration, and the audio
engine's capture/playback callbacks.  Machine integers are modelled as
`Nat`/`Int` with explicit reduction modulo `2^w` where the C++ code
relies on wraparound; bytes are natural numbers below 256; fallible
operations return `Option` or a success flag.
-/

set_option maxRecDepth 100000

namespace MeshRider

/-- `RTP_HEADER_SIZE` from RtpPacketizer.h. -/
def RTP_HEADER_SIZE : Nat := 12

/-- The jitter buffer's private `MAX_PACKET_SIZE` (RtpPacketizer.h, inside
`RtpJitterBuffer`). -/
def JB_MAX_PACKET_SIZE : Nat := 1500

/-- `BUFFER_SIZE` of the jitter buffer. -/
def BUFFER_SIZE : Nat := 50

/-- `ntohs(header.seq)`: the 16-bit sequence number stored big-endian in
bytes 2 and 3 of an RTP packet. -/
def parseSeq (data : List Nat) : Nat :=
  (data.getD 2 0 % 256) * 256 + data.getD 3 0 % 256

/-- `ntohl(header->ssrc)`: the 32-bit SSRC stored big-endian in bytes
8..11 of an RTP packet. -/
def parseSsrc (data : List Nat) : Nat :=
  ((data.getD 8 0 % 256) * 2 ^ 24) + ((data.getD 9 0 % 256) * 2 ^ 16) +
    ((data.getD 10 0 % 256) * 2 ^ 8) + data.getD 11 0 % 256

/-- One ring-buffer cell of `RtpJitterBuffer` (`struct Packet`): raw bytes,
their count, the parsed sequence number and a validity flag. -/
structure JBSlot where
  data : List Nat
  size : Nat
  seq : Nat
  valid : Bool
deriving DecidableEq, Repr

/-- The empty slot the constructor initializes every cell to. -/
def emptySlot : JBSlot := ⟨[], 0, 0, false⟩

/-- The mutable state of `RtpJitterBuffer`: head/tail indices, the
emptiness flag, the 50 slots, and the statistics counters. -/
structure JBState where
  head : Nat
  tail : Nat
  isEmpty : Bool
  buffer : List JBSlot
  packetsReceived : Nat
  packetsLost : Nat
  lastSeq : Nat
deriving DecidableEq, Repr

/-- `RtpJitterBuffer::RtpJitterBuffer()`: zeroed indices and counters,
all 50 slots invalid. -/
def JBState.init : JBState :=
  ⟨0, 0, true, List.replicate BUFFER_SIZE emptySlot, 0, 0, 0⟩

namespace RtpJitterBuffer

/-- `RtpJitterBuffer::enqueue(data, size)` (RtpPacketizer.cpp:48-92):
reject bad sizes, account sequence gaps below 100 into `packetsLost_`,
remember the sequence number, bump `packetsReceived_`, evict the head
slot when the ring is full (one more loss), store the packet at the tail
and advance it. -/
def enqueue (data : List Nat) (s : JBState) : JBState :=
  if data.length < RTP_HEADER_SIZE ∨ JB_MAX_PACKET_SIZE < data.length then s
  else
    let seq := parseSeq data
    let s1 :=
      if 0 < s.packetsReceived ∧ s.lastSeq ≠ 0 then
        let expected := (s.lastSeq + 1) % 65536
        if seq ≠ expected then
          let lost := (seq + 65536 - expected) % 65536
          if lost < 100 then { s with packetsLost := s.packetsLost + lost } else s
        else s
      else s
    let s2 := { s1 with lastSeq := seq, packetsReceived := s1.packetsReceived + 1 }
    let currentTail := s2.tail
    let next := (currentTail + 1) % BUFFER_SIZE
    let s3 :=
      if next = s2.head then
        { s2 with head := (s2.head + 1) % BUFFER_SIZE,
                  packetsLost := s2.packetsLost + 1 }
      else s2
    { s3 with
        buffer := s3.buffer.set currentTail ⟨data, data.length, seq, true⟩,
        tail := next,
        isEmpty := false }

/-- `RtpJitterBuffer::dequeue(buffer, size)` (RtpPacketizer.cpp:94-121):
returns the head slot's bytes in strict FIFO order, invalidating the
slot and advancing the head; `none` models the `false` return. -/
def dequeue (s : JBState) : Option (List Nat × Nat) × JBState :=
  if s.isEmpty then (none, s)
  else if s.head = s.tail then (none, { s with isEmpty := true })
  else
    let slot := s.buffer.getD s.head emptySlot
    if slot.valid = false then (none, s)
    else
      (some (slot.data, slot.size),
       { s with
           buffer := s.buffer.set s.head { slot with valid := false },
           head := (s.head + 1) % BUFFER_SIZE })

/-- `RtpJitterBuffer::reset()` (RtpPacketizer.cpp:123-135). -/
def reset (s : JBState) : JBState :=
  ⟨0, 0, true, s.buffer.map fun p => { p with valid := false }, 0, 0, 0⟩

/-- `RtpJitterBuffer::getCurrentSize()` (RtpPacketizer.cpp:137-148). -/
def getCurrentSize (s : JBState) : Nat :=
  if s.isEmpty then 0
  else if s.head ≤ s.tail then s.tail - s.head
  else BUFFER_SIZE - s.head + s.tail

/-- Enqueue a list of packets in order (repeated `enqueue` calls). -/
def enqueueAll (ps : List (List Nat)) (s : JBState) : JBState :=
  ps.foldl (fun t p => enqueue p t) s

/-- Dequeue `n` times, collecting the payloads of the successful calls
(stopping at the first failed one). -/
def dequeueN : Nat → JBState → List (List Nat) × JBState
  | 0, s => ([], s)
  | n + 1, s =>
    match dequeue s with
    | (some (d, _), t) =>
      let r := dequeueN n t
      (d :: r.1, r.2)
    | (none, t) => ([], t)

end RtpJitterBuffer

/-- A minimal 12-byte RTP packet whose sequence-number field holds
`n % 65536` (all other header bytes zero). -/
def pkt (n : Nat) : List Nat :=
  [0, 0, n % 65536 / 256, n % 256, 0, 0, 0, 0, 0, 0, 0, 0]

/-! ## Opus codec adapter (OpusCodec.cpp) -/

/-- The configuration state of `OpusEncoder` (OpusCodec.h): bitrate,
FEC toggle and complexity. -/
structure OpusEncoderState where
  bitrate : Int
  fecEnabled : Bool
  complexity : Int
deriving DecidableEq, Repr

/-- `OpusEncoder::OpusEncoder()`: `OPUS_BITRATE` (12000), FEC off,
complexity 5. -/
def OpusEncoderState.init : OpusEncoderState := ⟨12000, false, 5⟩

namespace OpusEncoder

/-- `OpusEncoder::setBitrate(bitrate)` (OpusCodec.cpp:104-114): out-of-range
values are clamped to `[6000, 64000]` with `std::max(6000, std::min(64000,
bitrate))`, then stored in `bitrate_`. -/
def setBitrate (bitrate : Int) (s : OpusEncoderState) : OpusEncoderState :=
  let b := if bitrate < 6000 ∨ bitrate > 64000
           then max 6000 (min 64000 bitrate) else bitrate
  { s with bitrate := b }

/-- `OpusEncoder::setComplexity(complexity)` (OpusCodec.cpp:123-133). -/
def setComplexity (complexity : Int) (s : OpusEncoderState) : OpusEncoderState :=
  let c := if complexity < 0 ∨ complexity > 10
           then max 0 (min 10 complexity) else complexity
  { s with complexity := c }

end OpusEncoder

/-! ## RTP packetizer (RtpPacketizer.cpp) -/

/-- `enum class TransportMode` (RtpPacketizer.h). -/
inductive TransportMode where
  | MULTICAST
  | UNICAST
  | AUTO
deriving DecidableEq, Repr

/-- `MAX_PACKET_SIZE` of the packetizer (RtpPacketizer.h:54): the
MTU-safe datagram cap. -/
def MAX_PACKET_SIZE : Nat := 1400

/-- One received-audio callback invocation: payload bytes, payload size
and sender SSRC, as passed on RtpPacketizer.cpp:551-553. -/
structure RxEvent where
  payload : List Nat
  size : Nat
  ssrc : Nat
deriving DecidableEq, Repr

/-- The state of `RtpPacketizer`: socket and running flags, RTP sequence
and timestamp state, SSRC, transport mode, multicast-join flag, unicast
peer set, the owned jitter buffer, the callback-registration flag, the
recorded callback invocations, and the statistics counters. -/
structure PktState where
  socketOpen : Bool
  isRunning : Bool
  receiveRunning : Bool
  sequence : Nat
  timestamp : Nat
  ssrc : Nat
  samplesPerFrame : Nat
  transportMode : TransportMode
  multicastJoined : Bool
  unicastPeers : List String
  jitterBuffer : JBState
  hasAudioCallback : Bool
  rxEvents : List RxEvent
  packetsSent : Nat
  packetsReceived : Nat
deriving DecidableEq, Repr

/-- `RtpPacketizer::RtpPacketizer()` with session SSRC `ssrc` (randomly
drawn in the source) and callback-registration flag `hasCb`. -/
def PktState.init (ssrc : Nat) (hasCb : Bool) : PktState :=
  ⟨false, false, false, 0, 0, ssrc, 960, TransportMode.AUTO, false, [],
   JBState.init, hasCb, [], 0, 0⟩

namespace RtpPacketizer

/-- `RtpPacketizer::createSocket()` (RtpPacketizer.cpp:189-270), with the
outcomes of the fallible system calls (`socket`, `setsockopt(SO_REUSEADDR)`,
`bind`, `IP_ADD_MEMBERSHIP`) passed as oracles.  The DSCP marking and the
shutdown pipe are best-effort and do not affect the result.  In MULTICAST
mode a join failure closes the socket and fails; in AUTO mode it demotes
`transportMode_` to UNICAST. -/
def createSocket (oSocket oReuse oBind oJoin : Bool) (s : PktState) :
    Bool × PktState :=
  if oSocket = false then (false, { s with socketOpen := false })
  else
    let s := { s with socketOpen := true }
    if oReuse = false then (false, { s with socketOpen := false })
    else if oBind = false then (false, { s with socketOpen := false })
    else
      let s :=
        if s.transportMode = TransportMode.MULTICAST ∨
           s.transportMode = TransportMode.AUTO then
          { s with multicastJoined := oJoin }
        else s
      if s.multicastJoined = false ∧
         s.transportMode = TransportMode.MULTICAST then
        (false, { s with socketOpen := false })
      else
        let s :=
          if s.multicastJoined = false ∧
             s.transportMode = TransportMode.AUTO then
            { s with transportMode := TransportMode.UNICAST }
          else s
        (true, s)

/-- `RtpPacketizer::sendToAll(data, size)` (RtpPacketizer.cpp:386-429):
true iff at least one destination accepted the datagram.  `mcastOk` is the
outcome of the multicast `sendto`, `peerOks` the outcomes of the per-peer
`sendto` calls (in peer order). -/
def sendToAll (mcastOk : Bool) (peerOks : List Bool) (s : PktState) : Bool :=
  (if s.multicastJoined ∧
      (s.transportMode = TransportMode.MULTICAST ∨
       s.transportMode = TransportMode.AUTO)
   then mcastOk else false)
  || (List.zipWith (fun (_ : String) ok => ok) s.unicastPeers peerOks).any id

/-- The serialized RTP header plus payload that `sendAudio` builds
(RtpPacketizer.cpp:356-372): `vpxcc = 2 << 6`, `mpt = marker | 111`,
sequence, timestamp and SSRC big-endian, then the (truncated) payload. -/
def mkRtpPacket (isMarker : Bool) (seq timestamp ssrc : Nat)
    (payload : List Nat) : List Nat :=
  [128, (if isMarker then 128 else 0) + 111,
   seq / 256 % 256, seq % 256,
   timestamp / 2 ^ 24 % 256, timestamp / 2 ^ 16 % 256,
   timestamp / 2 ^ 8 % 256, timestamp % 256,
   ssrc / 2 ^ 24 % 256, ssrc / 2 ^ 16 % 256,
   ssrc / 2 ^ 8 % 256, ssrc % 256] ++ payload

/-- `RtpPacketizer::sendAudio(opusData, opusSize, isMarker)`
(RtpPacketizer.cpp:350-384): bail out when not running or the socket is
closed; otherwise consume one sequence number (`fetch_add` on the 16-bit
counter), truncate an oversized payload, build the packet, attempt
delivery, and on success advance the timestamp and the sent counter.
Returns the success flag, the new state and the datagram actually put on
the wire (`none` when no destination accepted it). -/
def sendAudio (mcastOk : Bool) (peerOks : List Bool) (opusData : List Nat)
    (isMarker : Bool) (s : PktState) : Bool × PktState × Option (List Nat) :=
  if s.isRunning = false ∨ s.socketOpen = false then (false, s, none)
  else
    let seqUsed := s.sequence % 65536
    let s := { s with sequence := (s.sequence + 1) % 65536 }
    let payload := opusData.take (MAX_PACKET_SIZE - RTP_HEADER_SIZE)
    let packet := mkRtpPacket isMarker seqUsed (s.timestamp % 2 ^ 32) s.ssrc payload
    let sent := sendToAll mcastOk peerOks s
    if sent then
      (true,
       { s with timestamp := (s.timestamp + s.samplesPerFrame) % 2 ^ 32,
                packetsSent := s.packetsSent + 1 },
       some packet)
    else (false, s, none)

/-- `RtpPacketizer::addUnicastPeer(ipAddress)` (RtpPacketizer.cpp:431-441). -/
def addUnicastPeer (ip : String) (s : PktState) : PktState :=
  if ip ∈ s.unicastPeers then s
  else { s with unicastPeers := s.unicastPeers ++ [ip] }

/-- `RtpPacketizer::clearUnicastPeers()` (RtpPacketizer.cpp:443-446). -/
def clearUnicastPeers (s : PktState) : PktState :=
  { s with unicastPeers := [] }

/-- One iteration of `RtpPacketizer::receiveLoop()` for a received
datagram `buffer` (RtpPacketizer.cpp:533-556): datagrams no longer than
the header are ignored; a datagram whose SSRC equals the session SSRC is
discarded; otherwise it is enqueued into the jitter buffer, the audio
callback (if registered) is invoked with the payload, and the received
counter is bumped. -/
def receiveIteration (buffer : List Nat) (s : PktState) : PktState :=
  let received := buffer.length
  if RTP_HEADER_SIZE < received then
    let ssrc := parseSsrc buffer
    if ssrc = s.ssrc then s
    else
      let s1 := { s with jitterBuffer := RtpJitterBuffer.enqueue buffer s.jitterBuffer }
      let s2 :=
        if s1.hasAudioCallback then
          { s1 with rxEvents := s1.rxEvents ++
              [⟨buffer.drop RTP_HEADER_SIZE, received - RTP_HEADER_SIZE, ssrc⟩] }
        else s1
      { s2 with packetsReceived := s2.packetsReceived + 1 }
  else s

/-- `RtpPacketizer::start()` (RtpPacketizer.cpp:334-343). -/
def start (s : PktState) : PktState := { s with isRunning := true }

/-- `RtpPacketizer::stopReceiveLoop()` (RtpPacketizer.cpp:461-483). -/
def stopReceiveLoop (s : PktState) : PktState := { s with receiveRunning := false }

/-- `RtpPacketizer::startReceiveLoop()` (RtpPacketizer.cpp:452-459). -/
def startReceiveLoop (s : PktState) : PktState := { s with receiveRunning := true }

/-- `RtpPacketizer::stop()` (RtpPacketizer.cpp:345-348). -/
def stop (s : PktState) : PktState := stopReceiveLoop { s with isRunning := false }

end RtpPacketizer

/-- The operations the control plane and the threads can perform on a
packetizer after initialization (every public entry point of
`RtpPacketizer` that runs during a session). -/
inductive PktOp where
  | start
  | stop
  | startReceiveLoop
  | stopReceiveLoop
  | sendAudio (mcastOk : Bool) (peerOks : List Bool) (data : List Nat) (isMarker : Bool)
  | addUnicastPeer (ip : String)
  | clearUnicastPeers
  | receiveDatagram (buffer : List Nat)
deriving DecidableEq, Repr

/-- Apply one session operation to the packetizer state. -/
def applyPktOp (op : PktOp) (s : PktState) : PktState :=
  match op with
  | .start => RtpPacketizer.start s
  | .stop => RtpPacketizer.stop s
  | .startReceiveLoop => RtpPacketizer.startReceiveLoop s
  | .stopReceiveLoop => RtpPacketizer.stopReceiveLoop s
  | .sendAudio m p d k => (RtpPacketizer.sendAudio m p d k s).2.1
  | .addUnicastPeer ip => RtpPacketizer.addUnicastPeer ip s
  | .clearUnicastPeers => RtpPacketizer.clearUnicastPeers s
  | .receiveDatagram b => RtpPacketizer.receiveIteration b s

/-- Apply a list of session operations in order. -/
def applyPktOps (ops : List PktOp) (s : PktState) : PktState :=
  ops.foldl (fun t op => applyPktOp op t) s

/-- One send request: the delivery oracles and the call arguments. -/
structure SendReq where
  mcastOk : Bool
  peerOks : List Bool
  data : List Nat
  isMarker : Bool
deriving DecidableEq, Repr

/-- Run a list of `sendAudio` calls, collecting the datagrams that were
actually transmitted on the wire. -/
def runSends (reqs : List SendReq) (s : PktState) : List (List Nat) × PktState :=
  match reqs with
  | [] => ([], s)
  | r :: rest =>
    let out := RtpPacketizer.sendAudio r.mcastOk r.peerOks r.data r.isMarker s
    let next := runSends rest out.2.1
    (out.2.2.elim next.1 (· :: next.1), next.2)

/-! ## Audio engine (AudioEngine.cpp) -/

/-- `OPUS_FRAME_SIZE` from OpusCodec.h:24: the sample count the capture
path accumulates before encoding (its comment reads "20ms @ 16kHz
(16 * 20)"). -/
def OPUS_FRAME_SIZE : Nat := 960

/-- `CaptureCallback::onAudioReady` (AudioEngine.cpp:320-402), restricted
to its accumulator effect: when not capturing the burst is dropped
(silence is written to the device buffer); otherwise the burst is
appended to `pcmBuffer_`, and when at least `OPUS_FRAME_SIZE` samples are
buffered the oldest `OPUS_FRAME_SIZE` are extracted (and handed to the
encoder) and removed.  Returns the new accumulator contents and the
extracted frame, if any. -/
def captureTick (isCapturing : Bool) (input : List Int) (pcmBuffer : List Int) :
    List Int × Option (List Int) :=
  if isCapturing = false then (pcmBuffer, none)
  else
    let buf := pcmBuffer ++ input
    if OPUS_FRAME_SIZE ≤ buf.length then
      (buf.drop OPUS_FRAME_SIZE, some (buf.take OPUS_FRAME_SIZE))
    else (buf, none)

/-- The observable actions `AudioEngine::startCapture` performs, in
program order. -/
inductive EngineAction where
  | resetEncoder
  | clearPcmBuffer
  | requestStart
  | closeStream
  | setCapturingTrue
deriving DecidableEq, Repr

/-- The engine state touched by `AudioEngine::startCapture`: the atomic
capturing flag, stream and encoder presence, the PCM accumulator, and a
trace of the actions performed so far. -/
structure EngState where
  isCapturing : Bool
  hasCaptureStream : Bool
  hasEncoder : Bool
  pcmBuffer : List Int
  trace : List EngineAction
deriving DecidableEq, Repr

namespace AudioEngine

/-- `AudioEngine::startCapture()` (AudioEngine.cpp:154-194): return true
at once when already capturing; fail when the stream is missing;
otherwise reset the encoder (when present), clear `pcmBuffer_`, request
the stream start (outcome `startOk`; on failure the stream is closed and
the call fails), and only then set `isCapturing_` to true. -/
def startCapture (startOk : Bool) (s : EngState) : Bool × EngState :=
  if s.isCapturing then (true, s)
  else if s.hasCaptureStream = false then (false, s)
  else
    let s := if s.hasEncoder then { s with trace := s.trace ++ [EngineAction.resetEncoder] } else s
    let s := { s with pcmBuffer := [], trace := s.trace ++ [EngineAction.clearPcmBuffer] }
    let s := { s with trace := s.trace ++ [EngineAction.requestStart] }
    if startOk = false then
      (false, { s with hasCaptureStream := false, trace := s.trace ++ [EngineAction.closeStream] })
    else
      (true, { s with isCapturing := true, trace := s.trace ++ [EngineAction.setCapturingTrue] })

end AudioEngine

/-- `a - b` computed on `size_t` (64-bit unsigned wraparound), as in the
expression `outputBuffer_.size() - numFrames` of AudioEngine.cpp:441. -/
def sub64 (a b : Nat) : Nat := (a + (2 ^ 64 - b % 2 ^ 64)) % 2 ^ 64

/-- The `PlaybackCallback` state (AudioEngine.h:189-198): the engine's
playing flag and decoder presence, the PCM output queue with its read
position, and the lazily created jitter buffer. -/
structure PlaybackState where
  isPlaying : Bool
  hasDecoder : Bool
  outputBuffer : List Int
  outputBufferPos : Nat
  jitterBuffer : Option JBState
deriving DecidableEq, Repr

namespace PlaybackCallback

/-- The refill step of `PlaybackCallback::onAudioReady`
(AudioEngine.cpp:440-485): when the output queue is low (the `size_t`
comparison `outputBufferPos_ >= outputBuffer_.size() - numFrames`) and a
jitter buffer exists, try one dequeue; on a packet of positive size,
decode it (`decodeFn`, empty result modelling a non-positive return) and
append the samples, or on decode failure invoke PLC (`plcFn`) and append
its samples when positive.  Returns the new state and whether
`decodePLC` was invoked. -/
def refill (decodeFn : List Nat → List Int) (plcFn : List Int) (numFrames : Nat)
    (s : PlaybackState) : PlaybackState × Bool :=
  if s.outputBufferPos ≥ sub64 s.outputBuffer.length numFrames then
    match s.jitterBuffer with
    | none => (s, false)
    | some jb =>
      match RtpJitterBuffer.dequeue jb with
      | (some (data, size), jb1) =>
        let s := { s with jitterBuffer := some jb1 }
        if 0 < size then
          if s.hasDecoder then
            let pcm := decodeFn data
            if pcm ≠ [] then
              ({ s with outputBuffer := s.outputBuffer ++ pcm }, false)
            else
              if plcFn ≠ [] then
                ({ s with outputBuffer := s.outputBuffer ++ plcFn }, true)
              else (s, true)
          else (s, false)
        else (s, false)
      | (none, jb1) => ({ s with jitterBuffer := some jb1 }, false)
  else (s, false)

/-- `PlaybackCallback::onAudioReady` (AudioEngine.cpp:426-519): emit
silence when not playing; otherwise refill from the jitter buffer, copy
up to `numFrames` queued samples to the device buffer, pad the shortfall
with silence, and erase consumed samples once the read position passes
half the queue.  Returns the samples written to the device, the new
state, and whether PLC was invoked. -/
def onAudioReady (decodeFn : List Nat → List Int) (plcFn : List Int)
    (numFrames : Nat) (s : PlaybackState) :
    List Int × PlaybackState × Bool :=
  if s.isPlaying = false then (List.replicate numFrames 0, s, false)
  else
    let r := refill decodeFn plcFn numFrames s
    let s1 := r.1
    let toCopy := if s1.outputBufferPos < s1.outputBuffer.length then
                    min numFrames (s1.outputBuffer.length - s1.outputBufferPos)
                  else 0
    let written := (s1.outputBuffer.drop s1.outputBufferPos).take toCopy
    let output := written ++ List.replicate (numFrames - toCopy) 0
    let s2 := { s1 with outputBufferPos := s1.outputBufferPos + toCopy }
    let s3 := if s2.outputBufferPos ≥ s2.outputBuffer.length / 2 then
                { s2 with outputBuffer := s2.outputBuffer.drop s2.outputBufferPos,
                          outputBufferPos := 0 }
              else s2
    (output, s3, r.2)

end PlaybackCallback

/-! ## Claim theorems -/

/-- C1 (code bug evidence): `OpusEncoder::setBitrate` clamps to
`[6000, 64000]`, not to `[6000, 24000]` as the claim and the header's
own documentation state: an input of 3000 is stored as 6000, but an
input of 100000 is stored as 64000, not 24000. -/
theorem C1_setBitrate_upper_clamp_is_64000 :
    (OpusEncoder.setBitrate 3000 OpusEncoderState.init).bitrate = 6000 ∧
    (OpusEncoder.setBitrate 100000 OpusEncoderState.init).bitrate = 64000 ∧
    (OpusEncoder.setBitrate 100000 OpusEncoderState.init).bitrate ≠ 24000 := by
  decide

/-- C4 (code bug evidence): the capture accumulator extracts frames of
`OPUS_FRAME_SIZE = 960` samples, not 320: with 320 samples buffered
(one codec frame per the claim and per the constant's own comment
"20ms @ 16kHz (16 * 20)") nothing is emitted, and an emitted frame has
960 samples. -/
theorem C4_capture_frames_are_960_not_320 :
    captureTick true (List.replicate 320 0) [] = (List.replicate 320 0, none) ∧
    (captureTick true (List.replicate 960 0) []).2 = some (List.replicate 960 0) ∧
    (List.replicate (960 : Nat) (0 : Int)).length ≠ 320 := by
  decide

/-- C10: enqueuing a packet smaller than the 12-byte RTP header or larger
than 1500 bytes into the jitter buffer returns with no effect at all:
the resulting state (slots, head, tail, loss counter, received counter,
last-seen sequence number) is the argument state, and no error is
raised. -/
theorem C10_enqueue_rejects_bad_sizes (data : List Nat) (s : JBState)
    (h : data.length < RTP_HEADER_SIZE ∨ JB_MAX_PACKET_SIZE < data.length) :
    RtpJitterBuffer.enqueue data s = s := by
  unfold RtpJitterBuffer.enqueue
  rw [if_pos h]

/-- Witness for C10: a 4-byte packet is below the header size and is
ignored by a fresh jitter buffer. -/
theorem C10_enqueue_rejects_bad_sizes_witness :
    (([0, 0, 0, 1] : List Nat).length < RTP_HEADER_SIZE ∨
      JB_MAX_PACKET_SIZE < ([0, 0, 0, 1] : List Nat).length) ∧
    RtpJitterBuffer.enqueue [0, 0, 0, 1] JBState.init = JBState.init :=
  ⟨Or.inl (by decide),
   C10_enqueue_rejects_bad_sizes [0, 0, 0, 1] JBState.init (Or.inl (by decide))⟩

/-- C8: a datagram processed by the receive loop whose RTP header SSRC
equals the local session's SSRC is discarded completely: the packetizer
state (in particular the jitter buffer, the callback-invocation record
and the received-packet counter) is unchanged. -/
theorem C8_own_ssrc_discarded (buffer : List Nat) (s : PktState)
    (hlen : RTP_HEADER_SIZE < buffer.length)
    (hssrc : parseSsrc buffer = s.ssrc) :
    RtpPacketizer.receiveIteration buffer s = s := by
  unfold RtpPacketizer.receiveIteration
  simp [hlen, hssrc]

/-- Witness for C8: a 13-byte datagram carrying SSRC 7, received by a
session whose own SSRC is 7, leaves the state untouched. -/
theorem C8_own_ssrc_discarded_witness :
    (RTP_HEADER_SIZE < ([0, 0, 0, 1, 0, 0, 0, 0, 0, 0, 0, 7, 3] : List Nat).length) ∧
    parseSsrc [0, 0, 0, 1, 0, 0, 0, 0, 0, 0, 0, 7, 3] = (PktState.init 7 true).ssrc ∧
    RtpPacketizer.receiveIteration [0, 0, 0, 1, 0, 0, 0, 0, 0, 0, 0, 7, 3]
      (PktState.init 7 true) = PktState.init 7 true :=
  ⟨by decide, by decide,
   C8_own_ssrc_discarded _ _ (by decide) (by decide)⟩

/-- C9: from any non-capturing engine state (in particular one holding
leftover accumulator samples from a stopped session), a successful
`startCapture` leaves the accumulator empty and has performed, in order,
the encoder reset, the accumulator clear and the stream start before
setting the capturing flag — the flag flip is the last action. -/
theorem C9_startCapture_clears_before_flag (s : EngState) (ok : Bool)
    (hnc : s.isCapturing = false) (henc : s.hasEncoder = true)
    (hsucc : (AudioEngine.startCapture ok s).1 = true) :
    (AudioEngine.startCapture ok s).2.pcmBuffer = [] ∧
    (AudioEngine.startCapture ok s).2.isCapturing = true ∧
    (AudioEngine.startCapture ok s).2.trace =
      s.trace ++ [EngineAction.resetEncoder, EngineAction.clearPcmBuffer,
                  EngineAction.requestStart, EngineAction.setCapturingTrue] := by
  cases hstream : s.hasCaptureStream with
  | false => simp [AudioEngine.startCapture, hnc, hstream] at hsucc
  | true =>
    cases ok with
    | false => simp [AudioEngine.startCapture, hnc, hstream, henc] at hsucc
    | true =>
      simp [AudioEngine.startCapture, hnc, hstream, henc, List.append_assoc]

/-- Witness for C9: restarting from a stopped session whose accumulator
still holds three samples succeeds and leaves the accumulator empty,
with the flag flipped last. -/
theorem C9_startCapture_clears_before_flag_witness :
    ((⟨false, true, true, [1, 2, 3], []⟩ : EngState).isCapturing = false) ∧
    ((AudioEngine.startCapture true ⟨false, true, true, [1, 2, 3], []⟩).1 = true) ∧
    ((AudioEngine.startCapture true ⟨false, true, true, [1, 2, 3], []⟩).2.pcmBuffer = [] ∧
     (AudioEngine.startCapture true ⟨false, true, true, [1, 2, 3], []⟩).2.isCapturing = true ∧
     (AudioEngine.startCapture true ⟨false, true, true, [1, 2, 3], []⟩).2.trace =
       ([] : List EngineAction) ++
         [EngineAction.resetEncoder, EngineAction.clearPcmBuffer,
          EngineAction.requestStart, EngineAction.setCapturingTrue]) :=
  ⟨rfl, by decide,
   C9_startCapture_clears_before_flag ⟨false, true, true, [1, 2, 3], []⟩ true
     rfl rfl (by decide)⟩

/-- In every session operation after initialization, the transport mode
field is read but never written. -/
theorem applyPktOp_transportMode (op : PktOp) (s : PktState) :
    (applyPktOp op s).transportMode = s.transportMode := by
  cases op with
  | start => rfl
  | stop => rfl
  | startReceiveLoop => rfl
  | stopReceiveLoop => rfl
  | sendAudio m p d k =>
    simp only [applyPktOp, RtpPacketizer.sendAudio]
    split_ifs <;> rfl
  | addUnicastPeer ip =>
    simp only [applyPktOp, RtpPacketizer.addUnicastPeer]
    split_ifs <;> rfl
  | clearUnicastPeers => rfl
  | receiveDatagram b =>
    simp only [applyPktOp, RtpPacketizer.receiveIteration]
    split_ifs <;> rfl

/-- C7: (i) in AUTO mode, when joining the multicast group fails, a
successful `createSocket` leaves the transport mode demoted to UNICAST;
(ii) no later session operation ever writes the transport mode, so the
demotion is one-way for the session; (iii) in MULTICAST mode a join
failure makes `createSocket` fail and closes the socket. -/
theorem C7_auto_demotes_permanently :
    (∀ (s : PktState) (o1 o2 o3 : Bool),
        s.transportMode = TransportMode.AUTO →
        (RtpPacketizer.createSocket o1 o2 o3 false s).1 = true →
        (RtpPacketizer.createSocket o1 o2 o3 false s).2.transportMode =
          TransportMode.UNICAST) ∧
    (∀ (ops : List PktOp) (s : PktState),
        (applyPktOps ops s).transportMode = s.transportMode) ∧
    (∀ (s : PktState) (o1 o2 o3 : Bool),
        s.transportMode = TransportMode.MULTICAST →
        (RtpPacketizer.createSocket o1 o2 o3 false s).1 = false ∧
        (RtpPacketizer.createSocket o1 o2 o3 false s).2.socketOpen = false) := by
  refine ⟨?_, ?_, ?_⟩
  · intro s o1 o2 o3 hmode hok
    unfold RtpPacketizer.createSocket at hok ⊢
    cases o1 with
    | false => simp at hok
    | true =>
      cases o2 with
      | false => simp at hok
      | true =>
        cases o3 with
        | false => simp at hok
        | true => simp [hmode]
  · intro ops
    induction ops with
    | nil => intro s; rfl
    | cons op rest ih =>
      intro s
      show (applyPktOps rest (applyPktOp op s)).transportMode = _
      rw [ih (applyPktOp op s), applyPktOp_transportMode]
  · intro s o1 o2 o3 hmode
    unfold RtpPacketizer.createSocket
    cases o1 with
    | false => simp
    | true =>
      cases o2 with
      | false => simp
      | true =>
        cases o3 with
        | false => simp
        | true => simp [hmode]

/-- Witness for C7: a fresh AUTO-mode session whose multicast join fails
initializes successfully in UNICAST mode, and stays in UNICAST across a
start, a peer addition, a send and a received datagram; a MULTICAST-mode
session with a failed join fails to initialize with the socket closed. -/
theorem C7_auto_demotes_permanently_witness :
    ((PktState.init 1 false).transportMode = TransportMode.AUTO) ∧
    ((RtpPacketizer.createSocket true true true false (PktState.init 1 false)).1 = true) ∧
    ((RtpPacketizer.createSocket true true true false
        (PktState.init 1 false)).2.transportMode = TransportMode.UNICAST) ∧
    ((applyPktOps [PktOp.start, PktOp.addUnicastPeer "10.0.0.2",
                   PktOp.sendAudio true [true] [1, 2] false,
                   PktOp.receiveDatagram (pkt 1 ++ [9])]
        (RtpPacketizer.createSocket true true true false
          (PktState.init 1 false)).2).transportMode =
      (RtpPacketizer.createSocket true true true false
        (PktState.init 1 false)).2.transportMode) ∧
    ((RtpPacketizer.createSocket true true true false
        { PktState.init 2 false with
            transportMode := TransportMode.MULTICAST }).1 = false ∧
     (RtpPacketizer.createSocket true true true false
        { PktState.init 2 false with
            transportMode := TransportMode.MULTICAST }).2.socketOpen = false) :=
  ⟨rfl, by decide,
   C7_auto_demotes_permanently.1 (PktState.init 1 false) true true true rfl (by decide),
   C7_auto_demotes_permanently.2.1 _ _,
   C7_auto_demotes_permanently.2.2 _ true true true rfl⟩

/-- The gap contribution `enqueue` adds to `packetsLost_` for a packet
with sequence number `seq`: the wrap-aware distance from the expected
number, but only when a prior packet is recorded, the last sequence
number is nonzero, and the gap passes the `lost < 100` sanity check. -/
def lossDelta (s : JBState) (seq : Nat) : Nat :=
  if 0 < s.packetsReceived ∧ s.lastSeq ≠ 0 ∧ seq ≠ (s.lastSeq + 1) % 65536 ∧
     (seq + 65536 - (s.lastSeq + 1) % 65536) % 65536 < 100
  then (seq + 65536 - (s.lastSeq + 1) % 65536) % 65536 else 0

/-- The eviction contribution `enqueue` adds to `packetsLost_`: one when
the ring is full (the advanced tail would collide with the head). -/
def evictDelta (s : JBState) : Nat :=
  if (s.tail + 1) % BUFFER_SIZE = s.head then 1 else 0

/-- `enqueue` changes the loss counter by exactly the gap contribution
plus the eviction contribution. -/
theorem enqueue_packetsLost (data : List Nat) (s : JBState)
    (h : ¬(data.length < RTP_HEADER_SIZE ∨ JB_MAX_PACKET_SIZE < data.length)) :
    (RtpJitterBuffer.enqueue data s).packetsLost =
      s.packetsLost + lossDelta s (parseSeq data) + evictDelta s := by
  unfold RtpJitterBuffer.enqueue lossDelta evictDelta
  rw [if_neg h]
  by_cases hk : 0 < s.packetsReceived ∧ s.lastSeq ≠ 0 <;>
    by_cases hg : parseSeq data = (s.lastSeq + 1) % 65536 <;>
    by_cases hc : (parseSeq data + 65536 - (s.lastSeq + 1) % 65536) % 65536 < 100 <;>
    by_cases he : (s.tail + 1) % BUFFER_SIZE = s.head <;>
    simp [hk, hg, hc, he]

/-- `enqueue` never decreases the loss counter. -/
theorem enqueue_packetsLost_mono (data : List Nat) (s : JBState) :
    s.packetsLost ≤ (RtpJitterBuffer.enqueue data s).packetsLost := by
  by_cases h : data.length < RTP_HEADER_SIZE ∨ JB_MAX_PACKET_SIZE < data.length
  · unfold RtpJitterBuffer.enqueue
    rw [if_pos h]
  · rw [enqueue_packetsLost data s h]
    omega

/-- `dequeue` never touches the loss counter. -/
theorem dequeue_packetsLost (s : JBState) :
    (RtpJitterBuffer.dequeue s).2.packetsLost = s.packetsLost := by
  unfold RtpJitterBuffer.dequeue
  split_ifs <;> try rfl
  by_cases hv : (s.buffer[s.head]?.getD emptySlot).valid = false <;> simp [hv]

/-- C3 (counterexample): the claimed gap accounting fails in two ways.
After receiving sequence number 5, a packet with sequence number 205
(gap 199 from the expected 6) leaves the loss counter unchanged, because
the code's `lost < 100` sanity check discards it; and after receiving
sequence number 0, a packet with sequence number 5 (gap 4) also leaves
the counter unchanged, because the code treats a last sequence number of
0 as "no prior packet". -/
theorem C3_gap_accounting_counterexample :
    (RtpJitterBuffer.enqueue (pkt 5) JBState.init).packetsReceived > 0 ∧
    (RtpJitterBuffer.enqueue (pkt 5) JBState.init).lastSeq = 5 ∧
    parseSeq (pkt 205) ≠
      ((RtpJitterBuffer.enqueue (pkt 5) JBState.init).lastSeq + 1) % 65536 ∧
    (parseSeq (pkt 205) + 65536 - 6) % 65536 = 199 ∧
    (RtpJitterBuffer.enqueue (pkt 205)
        (RtpJitterBuffer.enqueue (pkt 5) JBState.init)).packetsLost =
      (RtpJitterBuffer.enqueue (pkt 5) JBState.init).packetsLost ∧
    (RtpJitterBuffer.enqueue (pkt 5)
        (RtpJitterBuffer.enqueue (pkt 0) JBState.init)).packetsLost =
      (RtpJitterBuffer.enqueue (pkt 0) JBState.init).packetsLost := by
  decide

/-- C3 (amended): for a size-valid packet, `enqueue` increases the loss
counter by exactly the wrap-aware gap `(received − expected) mod 65536` —
but only when a prior packet was recorded with a nonzero sequence number
and the gap is below 100 — plus one when a full buffer forces an
eviction; and the counter never decreases across enqueue and dequeue
operations. -/
theorem C3_loss_counter_gap_accounting :
    (∀ (data : List Nat) (s : JBState),
        ¬(data.length < RTP_HEADER_SIZE ∨ JB_MAX_PACKET_SIZE < data.length) →
        (RtpJitterBuffer.enqueue data s).packetsLost =
          s.packetsLost + lossDelta s (parseSeq data) + evictDelta s) ∧
    (∀ (data : List Nat) (s : JBState),
        s.packetsLost ≤ (RtpJitterBuffer.enqueue data s).packetsLost) ∧
    (∀ s : JBState, (RtpJitterBuffer.dequeue s).2.packetsLost = s.packetsLost) :=
  ⟨enqueue_packetsLost, enqueue_packetsLost_mono, dequeue_packetsLost⟩

/-- Witness for C3 (amended): a fresh buffer that saw sequence number 5
takes a packet with sequence number 9 and counts exactly the gap 3; the
loss counter does not decrease, and a dequeue leaves it alone. -/
theorem C3_loss_counter_gap_accounting_witness :
    (¬((pkt 9).length < RTP_HEADER_SIZE ∨ JB_MAX_PACKET_SIZE < (pkt 9).length)) ∧
    (RtpJitterBuffer.enqueue (pkt 9)
        (RtpJitterBuffer.enqueue (pkt 5) JBState.init)).packetsLost =
      (RtpJitterBuffer.enqueue (pkt 5) JBState.init).packetsLost +
        lossDelta (RtpJitterBuffer.enqueue (pkt 5) JBState.init) (parseSeq (pkt 9)) +
        evictDelta (RtpJitterBuffer.enqueue (pkt 5) JBState.init) ∧
    (RtpJitterBuffer.dequeue
        (RtpJitterBuffer.enqueue (pkt 5) JBState.init)).2.packetsLost =
      (RtpJitterBuffer.enqueue (pkt 5) JBState.init).packetsLost :=
  ⟨by decide,
   C3_loss_counter_gap_accounting.1 (pkt 9)
     (RtpJitterBuffer.enqueue (pkt 5) JBState.init) (by decide),
   C3_loss_counter_gap_accounting.2.2
     (RtpJitterBuffer.enqueue (pkt 5) JBState.init)⟩

/-- A packet size the jitter buffer accepts. -/
def validSize (p : List Nat) : Prop :=
  RTP_HEADER_SIZE ≤ p.length ∧ p.length ≤ JB_MAX_PACKET_SIZE

instance (p : List Nat) : Decidable (validSize p) := by
  unfold validSize
  infer_instance

/-- The ring fields of the state after an accepted `enqueue`: the tail
always advances by one slot, the buffer is never left empty, the head
skips one slot exactly when the ring was full, and the packet lands in
the slot the old tail pointed at. -/
theorem enqueue_fields (data : List Nat) (s : JBState)
    (h : ¬(data.length < RTP_HEADER_SIZE ∨ JB_MAX_PACKET_SIZE < data.length)) :
    (RtpJitterBuffer.enqueue data s).tail = (s.tail + 1) % BUFFER_SIZE ∧
    (RtpJitterBuffer.enqueue data s).isEmpty = false ∧
    (RtpJitterBuffer.enqueue data s).head =
      (if (s.tail + 1) % BUFFER_SIZE = s.head then (s.head + 1) % BUFFER_SIZE
       else s.head) ∧
    (RtpJitterBuffer.enqueue data s).buffer =
      s.buffer.set s.tail ⟨data, data.length, parseSeq data, true⟩ := by
  unfold RtpJitterBuffer.enqueue
  rw [if_neg h]
  by_cases hk : 0 < s.packetsReceived ∧ s.lastSeq ≠ 0 <;>
    by_cases hg : parseSeq data = (s.lastSeq + 1) % 65536 <;>
    by_cases hc : (parseSeq data + 65536 - (s.lastSeq + 1) % 65536) % 65536 < 100 <;>
    by_cases he : (s.tail + 1) % BUFFER_SIZE = s.head <;>
    simp [hk, hg, hc, he]

/-- A contiguous filled segment of the ring: slots `h .. h + ps.length - 1`
hold the packets `ps` in arrival order, with the head at `h` and the tail
one past the segment, all without index wraparound. -/
def filledSeg (h : Nat) (ps : List (List Nat)) (s : JBState) : Prop :=
  s.buffer.length = BUFFER_SIZE ∧ s.head = h ∧ s.tail = h + ps.length ∧
  h + ps.length ≤ BUFFER_SIZE - 1 ∧
  ∀ i, i < ps.length →
    (s.buffer.getD (h + i) emptySlot).valid = true ∧
    (s.buffer.getD (h + i) emptySlot).data = ps.getD i []

/-- Enqueuing at most 49 size-valid packets into a fresh jitter buffer
lays them out as a filled segment starting at slot 0, and leaves the
buffer non-empty when at least one packet went in. -/
theorem enqueueAll_filledSeg (ps : List (List Nat))
    (hval : ∀ p ∈ ps, validSize p) (hlen : ps.length ≤ BUFFER_SIZE - 1) :
    filledSeg 0 ps (RtpJitterBuffer.enqueueAll ps JBState.init) ∧
    (ps = [] ∨ (RtpJitterBuffer.enqueueAll ps JBState.init).isEmpty = false) := by
  induction ps using List.reverseRecOn with
  | nil =>
    refine ⟨⟨by simp [JBState.init, RtpJitterBuffer.enqueueAll], rfl, rfl, ?_, ?_⟩, Or.inl rfl⟩
    · simp [BUFFER_SIZE]
    · intro i hi; simp at hi
  | append_singleton qs p ih =>
    have hq : ∀ r ∈ qs, validSize r := fun r hr => hval r (by simp [hr])
    have hp : validSize p := hval p (by simp)
    have hlenq : (qs ++ [p]).length = qs.length + 1 := by simp
    have hql : qs.length ≤ BUFFER_SIZE - 1 := by rw [hlenq] at hlen; omega
    obtain ⟨⟨hbl, hhd, htl, hbound, hslots⟩, _⟩ := ih hq hql
    simp only [Nat.zero_add] at htl hbound hslots
    have hstep : RtpJitterBuffer.enqueueAll (qs ++ [p]) JBState.init =
        RtpJitterBuffer.enqueue p (RtpJitterBuffer.enqueueAll qs JBState.init) := by
      simp [RtpJitterBuffer.enqueueAll]
    set s := RtpJitterBuffer.enqueueAll qs JBState.init with hs
    have hnotbad : ¬(p.length < RTP_HEADER_SIZE ∨ JB_MAX_PACKET_SIZE < p.length) := by
      rcases hp with ⟨h1, h2⟩; omega
    obtain ⟨ftail, fempty, fhead, fbuf⟩ := enqueue_fields p s hnotbad
    have hlen49 : qs.length + 1 ≤ BUFFER_SIZE - 1 := by rw [hlenq] at hlen; exact hlen
    have hmod : (s.tail + 1) % BUFFER_SIZE = qs.length + 1 := by
      rw [htl]
      have hx : qs.length + 1 < BUFFER_SIZE := by unfold BUFFER_SIZE at *; omega
      exact Nat.mod_eq_of_lt hx
    have hnofull : ¬((s.tail + 1) % BUFFER_SIZE = s.head) := by
      rw [hmod, hhd]; omega
    rw [hstep]
    refine ⟨⟨?_, ?_, ?_, ?_, ?_⟩, Or.inr fempty⟩
    · rw [fbuf, List.length_set, hbl]
    · rw [fhead, if_neg hnofull, hhd]
    · rw [ftail, hmod, hlenq]; omega
    · rw [hlenq]; omega
    · intro i hi
      rw [hlenq] at hi
      rw [fbuf, htl]
      simp only [Nat.zero_add]
      rcases Nat.lt_or_ge i qs.length with hlt | hge
      · have hne : qs.length ≠ i := by omega
        have hgetbuf : ((s.buffer.set qs.length
            ⟨p, p.length, parseSeq p, true⟩).getD i emptySlot) =
            s.buffer.getD i emptySlot := by
          rw [List.getD_eq_getElem?_getD, List.getElem?_set_ne hne,
              List.getD_eq_getElem?_getD]
        have hgetps : (qs ++ [p]).getD i [] = qs.getD i [] := by
          rw [List.getD_eq_getElem?_getD, List.getElem?_append_left hlt,
              List.getD_eq_getElem?_getD]
        rw [hgetbuf, hgetps]
        exact hslots i hlt
      · have hieq : i = qs.length := by omega
        subst hieq
        have hilt : qs.length < s.buffer.length := by
          rw [hbl]; unfold BUFFER_SIZE at *; omega
        have hgetbuf : ((s.buffer.set qs.length
            ⟨p, p.length, parseSeq p, true⟩).getD qs.length emptySlot) =
            ⟨p, p.length, parseSeq p, true⟩ := by
          rw [List.getD_eq_getElem?_getD, List.getElem?_set_self hilt]
          rfl
        have hgetps : (qs ++ [p]).getD qs.length [] = p := by
          rw [List.getD_eq_getElem?_getD, List.getElem?_append_right (Nat.le_refl _)]
          simp
        rw [hgetbuf, hgetps]
        exact ⟨rfl, rfl⟩

/-- Draining a filled segment returns its packets in arrival order. -/
theorem dequeueN_filledSeg :
    ∀ (ps : List (List Nat)) (h : Nat) (s : JBState), filledSeg h ps s →
      (ps ≠ [] → s.isEmpty = false) →
      (RtpJitterBuffer.dequeueN ps.length s).1 = ps := by
  intro ps
  induction ps with
  | nil => intro h s _ _; rfl
  | cons p rest ih =>
    intro h s hf hnem
    obtain ⟨hbl, hhd, htl, hbound, hslots⟩ := hf
    simp only [List.length_cons] at htl hbound hslots
    have hempty : s.isEmpty = false := hnem (by simp)
    have hne_ht : ¬(s.head = s.tail) := by rw [hhd, htl]; omega
    have hslot0 := hslots 0 (by omega)
    simp only [Nat.add_zero] at hslot0
    rw [← hhd] at hslot0
    have hvalid : ¬((s.buffer.getD s.head emptySlot).valid = false) := by
      rw [hslot0.1]; simp
    have hdeq : RtpJitterBuffer.dequeue s =
        (some ((s.buffer.getD s.head emptySlot).data,
               (s.buffer.getD s.head emptySlot).size),
         { s with
             buffer := s.buffer.set s.head
               { s.buffer.getD s.head emptySlot with valid := false },
             head := (s.head + 1) % BUFFER_SIZE }) := by
      unfold RtpJitterBuffer.dequeue
      rw [if_neg (by simp [hempty]), if_neg hne_ht]
      simp only
      rw [if_neg hvalid]
    have hdata : (s.buffer.getD s.head emptySlot).data = p := by
      rw [hslot0.2]
      simp
    have hmodh : (s.head + 1) % BUFFER_SIZE = h + 1 := by
      rw [hhd]
      have hx : h + 1 < BUFFER_SIZE := by unfold BUFFER_SIZE at *; omega
      exact Nat.mod_eq_of_lt hx
    have hrest : (RtpJitterBuffer.dequeueN rest.length
        { s with
            buffer := s.buffer.set s.head
              { s.buffer.getD s.head emptySlot with valid := false },
            head := (s.head + 1) % BUFFER_SIZE }).1 = rest := by
      apply ih (h + 1)
      · refine ⟨by simpa using hbl, by simpa using hmodh, ?_, by omega, ?_⟩
        · show s.tail = h + 1 + rest.length
          rw [htl]; omega
        · intro i hi
          have hne2 : s.head ≠ h + 1 + i := by rw [hhd]; omega
          have hget : ((s.buffer.set s.head
              { s.buffer.getD s.head emptySlot with valid := false }).getD
                (h + 1 + i) emptySlot) = s.buffer.getD (h + 1 + i) emptySlot := by
            rw [List.getD_eq_getElem?_getD, List.getElem?_set_ne hne2,
                List.getD_eq_getElem?_getD]
          show ((s.buffer.set s.head
              { s.buffer.getD s.head emptySlot with valid := false }).getD
                (h + 1 + i) emptySlot).valid = true ∧
               ((s.buffer.set s.head
              { s.buffer.getD s.head emptySlot with valid := false }).getD
                (h + 1 + i) emptySlot).data = (rest.getD i [])
          rw [hget]
          have hmem := hslots (1 + i) (by omega)
          have harith : h + (1 + i) = h + 1 + i := by omega
          rw [harith] at hmem
          refine ⟨hmem.1, ?_⟩
          rw [hmem.2]
          have hidx : 1 + i = i + 1 := by omega
          rw [List.getD_eq_getElem?_getD, List.getD_eq_getElem?_getD, hidx,
              List.getElem?_cons_succ]
      · intro _
        simp [hempty]
    show (RtpJitterBuffer.dequeueN (rest.length + 1) s).1 = p :: rest
    unfold RtpJitterBuffer.dequeueN
    rw [hdeq]
    simp only [List.getD_eq_getElem?_getD] at hdata hrest
    rw [hdata] at hrest
    simp [hdata, hrest]

/-- C6 (counterexample): enqueuing exactly 50 packets — not more than
50 — into a fresh jitter buffer already evicts the oldest one: the loss
counter reads 1, the occupancy is 49 (never 50), and the first dequeue
returns the second packet, the first having been dropped. -/
theorem C6_eviction_at_fiftieth_enqueue :
    (RtpJitterBuffer.enqueueAll ((List.range 50).map fun i => pkt (i + 1))
        JBState.init).packetsLost = 1 ∧
    RtpJitterBuffer.getCurrentSize
      (RtpJitterBuffer.enqueueAll ((List.range 50).map fun i => pkt (i + 1))
        JBState.init) = 49 ∧
    (RtpJitterBuffer.dequeueN 1
      (RtpJitterBuffer.enqueueAll ((List.range 50).map fun i => pkt (i + 1))
        JBState.init)).1 = [pkt 2] := by
  decide

/-- C6 (amended): the ring holds at most 49 packets (one of the 50 slots
is kept unused); an enqueue that finds the ring full evicts the oldest
slot, adding exactly one to the loss counter (beyond any gap accounting)
and advancing the head past the evicted packet; and up to 49 packets
enqueued without interleaved dequeues come back out in exact arrival
order. -/
theorem C6_eviction_and_fifo :
    (∀ s : JBState, s.head < BUFFER_SIZE → s.tail < BUFFER_SIZE →
        RtpJitterBuffer.getCurrentSize s ≤ BUFFER_SIZE - 1) ∧
    (∀ (data : List Nat) (s : JBState),
        validSize data → (s.tail + 1) % BUFFER_SIZE = s.head →
        (RtpJitterBuffer.enqueue data s).packetsLost =
          s.packetsLost + lossDelta s (parseSeq data) + 1 ∧
        (RtpJitterBuffer.enqueue data s).head = (s.head + 1) % BUFFER_SIZE) ∧
    (∀ ps : List (List Nat), (∀ p ∈ ps, validSize p) →
        ps.length ≤ BUFFER_SIZE - 1 →
        (RtpJitterBuffer.dequeueN ps.length
          (RtpJitterBuffer.enqueueAll ps JBState.init)).1 = ps) := by
  refine ⟨?_, ?_, ?_⟩
  · intro s hh ht
    unfold RtpJitterBuffer.getCurrentSize BUFFER_SIZE at *
    split_ifs <;> omega
  · intro data s hv hfull
    have hnb : ¬(data.length < RTP_HEADER_SIZE ∨ JB_MAX_PACKET_SIZE < data.length) := by
      rcases hv with ⟨h1, h2⟩; omega
    constructor
    · rw [enqueue_packetsLost data s hnb]
      unfold evictDelta
      rw [if_pos hfull]
    · have hf := (enqueue_fields data s hnb).2.2.1
      rw [hf, if_pos hfull]
  · intro ps hv hl
    obtain ⟨hf, hor⟩ := enqueueAll_filledSeg ps hv hl
    apply dequeueN_filledSeg ps 0 _ hf
    intro hne
    rcases hor with h0 | h1
    · exact absurd h0 hne
    · exact h1

/-- Witness for C6 (amended): a fresh buffer respects the 49-slot bound;
a full ring (head 0, tail 49) evicts on the next enqueue; three packets
come back in arrival order. -/
theorem C6_eviction_and_fifo_witness :
    RtpJitterBuffer.getCurrentSize JBState.init ≤ BUFFER_SIZE - 1 ∧
    ((RtpJitterBuffer.enqueue (pkt 3) { JBState.init with tail := 49 }).packetsLost =
        ({ JBState.init with tail := 49 } : JBState).packetsLost +
          lossDelta { JBState.init with tail := 49 } (parseSeq (pkt 3)) + 1 ∧
      (RtpJitterBuffer.enqueue (pkt 3) { JBState.init with tail := 49 }).head =
        (({ JBState.init with tail := 49 } : JBState).head + 1) % BUFFER_SIZE) ∧
    (RtpJitterBuffer.dequeueN 3
      (RtpJitterBuffer.enqueueAll [pkt 1, pkt 2, pkt 3] JBState.init)).1 =
      [pkt 1, pkt 2, pkt 3] :=
  ⟨C6_eviction_and_fifo.1 JBState.init (by decide) (by decide),
   C6_eviction_and_fifo.2.1 (pkt 3) { JBState.init with tail := 49 }
     (by decide) (by decide),
   C6_eviction_and_fifo.2.2 [pkt 1, pkt 2, pkt 3] (by decide) (by decide)⟩

/-- Parsing the sequence field of a packet built by `sendAudio` returns
the sequence number that was written into it. -/
theorem parseSeq_mkRtpPacket (m : Bool) (seq ts ssrc : Nat) (payload : List Nat)
    (h : seq < 65536) :
    parseSeq (RtpPacketizer.mkRtpPacket m seq ts ssrc payload) = seq := by
  unfold parseSeq RtpPacketizer.mkRtpPacket
  simp only [List.cons_append, List.getD_cons_succ, List.getD_cons_zero]
  omega

/-- `sendToAll` only reads the join flag, the transport mode, and the
peer set, so updating the sequence counter does not change its result. -/
theorem sendToAll_update_sequence (mc : Bool) (po : List Bool) (s : PktState) (x : Nat) :
    RtpPacketizer.sendToAll mc po { s with sequence := x } =
      RtpPacketizer.sendToAll mc po s := rfl

/-- A `sendAudio` call on a running session with an open socket, whose
delivery succeeds, consumes one sequence number, advances the timestamp
and the sent counter, and puts on the wire the packet carrying the
consumed sequence number. -/
theorem sendAudio_success (mc : Bool) (po : List Bool) (d : List Nat) (k : Bool)
    (s : PktState) (hrun : s.isRunning = true) (hsock : s.socketOpen = true)
    (hok : RtpPacketizer.sendToAll mc po s = true) :
    RtpPacketizer.sendAudio mc po d k s =
      (true,
       { s with sequence := (s.sequence + 1) % 65536,
                timestamp := (s.timestamp + s.samplesPerFrame) % 2 ^ 32,
                packetsSent := s.packetsSent + 1 },
       some (RtpPacketizer.mkRtpPacket k (s.sequence % 65536) (s.timestamp % 2 ^ 32)
              s.ssrc (d.take (MAX_PACKET_SIZE - RTP_HEADER_SIZE)))) := by
  have h2 : RtpPacketizer.sendToAll mc po
      { s with sequence := (s.sequence + 1) % 65536 } = true := by
    rw [sendToAll_update_sequence]; exact hok
  unfold RtpPacketizer.sendAudio
  rw [if_neg (by simp [hrun, hsock])]
  simp [h2]

/-- On a running session with an open socket, a run of `sendAudio` calls
that all find at least one accepting destination transmits packets whose
sequence numbers are exactly consecutive modulo 65536, starting at the
session's current counter. -/
theorem runSends_wireSeqs (reqs : List SendReq) : ∀ s : PktState,
    s.isRunning = true → s.socketOpen = true →
    (∀ r ∈ reqs, RtpPacketizer.sendToAll r.mcastOk r.peerOks s = true) →
    (runSends reqs s).1.map parseSeq =
      (List.range reqs.length).map (fun i => (s.sequence + i) % 65536) := by
  induction reqs with
  | nil => intro s _ _ _; rfl
  | cons r rest ih =>
    intro s hrun hsock hok
    have hsendok : RtpPacketizer.sendToAll r.mcastOk r.peerOks s = true :=
      hok r (by simp)
    have hsend := sendAudio_success r.mcastOk r.peerOks r.data r.isMarker s
      hrun hsock hsendok
    have hparse : parseSeq (RtpPacketizer.mkRtpPacket r.isMarker (s.sequence % 65536)
        (s.timestamp % 2 ^ 32) s.ssrc
        (r.data.take (MAX_PACKET_SIZE - RTP_HEADER_SIZE))) = s.sequence % 65536 :=
      parseSeq_mkRtpPacket _ _ _ _ _ (Nat.mod_lt _ (by omega))
    have hok2 : ∀ q ∈ rest, RtpPacketizer.sendToAll q.mcastOk q.peerOks
        { s with sequence := (s.sequence + 1) % 65536,
                 timestamp := (s.timestamp + s.samplesPerFrame) % 2 ^ 32,
                 packetsSent := s.packetsSent + 1 } = true := by
      intro q hq
      exact hok q (List.mem_cons_of_mem r hq)
    have hih := ih
      { s with sequence := (s.sequence + 1) % 65536,
               timestamp := (s.timestamp + s.samplesPerFrame) % 2 ^ 32,
               packetsSent := s.packetsSent + 1 } hrun hsock hok2
    unfold runSends
    rw [hsend]
    simp only [Option.elim, List.map_cons, List.length_cons, List.range_succ_eq_map,
               List.map_map]
    refine congrArg₂ List.cons ?_ ?_
    · rw [hparse]
      omega
    · rw [hih]
      apply List.map_congr_left
      intro i _
      show ((s.sequence + 1) % 65536 + i) % 65536 = (s.sequence + (i + 1)) % 65536
      omega

/-- C5 (counterexample): `sendAudio` consumes a sequence number even when
no destination accepts the datagram, so the wire carries a gap.  In a
demoted unicast session, sending with one peer, then with the peer set
cleared (the send fails), then with the peer restored, puts sequence
numbers 0 and 2 on the wire: the transmitted numbers do not increment by
exactly 1 modulo 65536. -/
theorem C5_wire_gap_after_failed_send :
    ((RtpPacketizer.sendAudio true [true] [1, 2, 3] false
        { PktState.init 5 false with
            isRunning := true, socketOpen := true,
            transportMode := TransportMode.UNICAST,
            unicastPeers := ["10.0.0.2"] }).2.2.elim 99 parseSeq = 0) ∧
    ((RtpPacketizer.sendAudio true [true] [4, 5] false
        (RtpPacketizer.clearUnicastPeers
          (RtpPacketizer.sendAudio true [true] [1, 2, 3] false
            { PktState.init 5 false with
                isRunning := true, socketOpen := true,
                transportMode := TransportMode.UNICAST,
                unicastPeers := ["10.0.0.2"] }).2.1)).2.2 = none) ∧
    ((RtpPacketizer.sendAudio true [true] [6] false
        (RtpPacketizer.addUnicastPeer "10.0.0.2"
          (RtpPacketizer.sendAudio true [true] [4, 5] false
            (RtpPacketizer.clearUnicastPeers
              (RtpPacketizer.sendAudio true [true] [1, 2, 3] false
                { PktState.init 5 false with
                    isRunning := true, socketOpen := true,
                    transportMode := TransportMode.UNICAST,
                    unicastPeers := ["10.0.0.2"] }).2.1)).2.1)).2.2.elim 99 parseSeq
      = 2) ∧
    ¬((2 : Nat) = (0 + 1) % 65536) := by
  decide

/-- C5 (amended): each `sendAudio` call on a running session consumes
exactly one sequence number; when every call's delivery succeeds, the
transmitted headers carry exactly consecutive sequence numbers modulo
65536 — no gaps and, for runs of at most 65536 sends, no duplicates.
A failed delivery still consumes its number, leaving a gap on the wire. -/
theorem C5_sequence_numbers_consecutive (reqs : List SendReq) (s : PktState)
    (hrun : s.isRunning = true) (hsock : s.socketOpen = true)
    (hok : ∀ r ∈ reqs, RtpPacketizer.sendToAll r.mcastOk r.peerOks s = true) :
    (runSends reqs s).1.map parseSeq =
      (List.range reqs.length).map (fun i => (s.sequence + i) % 65536) ∧
    (reqs.length ≤ 65536 → ((runSends reqs s).1.map parseSeq).Nodup) := by
  have hmain := runSends_wireSeqs reqs s hrun hsock hok
  refine ⟨hmain, fun hle => ?_⟩
  rw [hmain]
  apply List.Nodup.map_on ?_ (List.nodup_range _)
  intro x hx y hy hxy
  rw [List.mem_range] at hx hy
  omega

/-- Witness for C5 (amended): two successful sends from a fresh running
unicast session put sequence numbers 0 and 1 on the wire, distinct. -/
theorem C5_sequence_numbers_consecutive_witness :
    ((runSends [⟨true, [true], [1, 2], false⟩, ⟨true, [true], [3], true⟩]
        { PktState.init 5 false with
            isRunning := true, socketOpen := true,
            transportMode := TransportMode.UNICAST,
            unicastPeers := ["10.0.0.2"] }).1.map parseSeq =
      (List.range 2).map (fun i =>
        (({ PktState.init 5 false with
              isRunning := true, socketOpen := true,
              transportMode := TransportMode.UNICAST,
              unicastPeers := ["10.0.0.2"] } : PktState).sequence + i) % 65536)) ∧
    ((runSends [⟨true, [true], [1, 2], false⟩, ⟨true, [true], [3], true⟩]
        { PktState.init 5 false with
            isRunning := true, socketOpen := true,
            transportMode := TransportMode.UNICAST,
            unicastPeers := ["10.0.0.2"] }).1.map parseSeq).Nodup :=
  ⟨(C5_sequence_numbers_consecutive _ _ rfl rfl (by decide)).1,
   (C5_sequence_numbers_consecutive _ _ rfl rfl (by decide)).2 (by decide)⟩

/-- When the session is playing, the PLC flag reported by a playback
tick is exactly the one produced by its refill step. -/
theorem onAudioReady_plcFlag (decodeFn : List Nat → List Int) (plcFn : List Int)
    (numFrames : Nat) (s : PlaybackState) (hplay : s.isPlaying = true) :
    (PlaybackCallback.onAudioReady decodeFn plcFn numFrames s).2.2 =
      (PlaybackCallback.refill decodeFn plcFn numFrames s).2 := by
  unfold PlaybackCallback.onAudioReady
  rw [if_neg (by simp [hplay])]

/-- C2 (counterexample): a playing tick with a low output queue and an
empty jitter buffer does not invoke loss concealment: the dequeue
returns nothing, the PLC flag stays false, and the tick is padded with
silence (one leftover queued sample followed by 191 zeros), contrary to
the claim that `decodePLC` is invoked whenever the dequeue returns no
packet. -/
theorem C2_empty_dequeue_emits_silence :
    ((⟨true, true, List.replicate 200 5, 199, some JBState.init⟩ :
        PlaybackState).outputBufferPos ≥
      sub64 (List.replicate 200 (5 : Int)).length 192) ∧
    (PlaybackCallback.onAudioReady (fun _ => [9]) [7] 192
      ⟨true, true, List.replicate 200 5, 199, some JBState.init⟩).2.2 = false ∧
    (PlaybackCallback.onAudioReady (fun _ => [9]) [7] 192
      ⟨true, true, List.replicate 200 5, 199, some JBState.init⟩).1 =
      [5] ++ List.replicate 191 0 := by
  decide

/-- C2 (amended): loss concealment runs only when a dequeued packet
fails to decode — then `decodePLC` is invoked and its synthesized
samples are appended to the output queue; when the jitter-buffer dequeue
returns no packet, PLC is not invoked and the output queue is left as it
was (the tick is padded with silence). -/
theorem C2_plc_only_on_decode_failure :
    (∀ (decodeFn : List Nat → List Int) (plcFn : List Int) (numFrames : Nat)
        (s : PlaybackState) (jb jb1 : JBState) (data : List Nat) (size : Nat),
        s.isPlaying = true → s.hasDecoder = true →
        s.outputBufferPos ≥ sub64 s.outputBuffer.length numFrames →
        s.jitterBuffer = some jb →
        RtpJitterBuffer.dequeue jb = (some (data, size), jb1) →
        0 < size → decodeFn data = [] →
        (PlaybackCallback.refill decodeFn plcFn numFrames s).2 = true ∧
        (PlaybackCallback.refill decodeFn plcFn numFrames s).1.outputBuffer =
          s.outputBuffer ++ plcFn ∧
        (PlaybackCallback.onAudioReady decodeFn plcFn numFrames s).2.2 = true) ∧
    (∀ (decodeFn : List Nat → List Int) (plcFn : List Int) (numFrames : Nat)
        (s : PlaybackState) (jb jb1 : JBState),
        s.outputBufferPos ≥ sub64 s.outputBuffer.length numFrames →
        s.jitterBuffer = some jb →
        RtpJitterBuffer.dequeue jb = (none, jb1) →
        (PlaybackCallback.refill decodeFn plcFn numFrames s).2 = false ∧
        (PlaybackCallback.refill decodeFn plcFn numFrames s).1.outputBuffer =
          s.outputBuffer) := by
  constructor
  · intro decodeFn plcFn numFrames s jb jb1 data size hplay hdec hlow hjb hdq hsz hfail
    have hre : (PlaybackCallback.refill decodeFn plcFn numFrames s).2 = true ∧
        (PlaybackCallback.refill decodeFn plcFn numFrames s).1.outputBuffer =
          s.outputBuffer ++ plcFn := by
      by_cases hplc : plcFn = []
      · constructor <;>
          simp [PlaybackCallback.refill, hlow, hjb, hdq, hsz, hdec, hfail, hplc]
      · constructor <;>
          simp [PlaybackCallback.refill, hlow, hjb, hdq, hsz, hdec, hfail, hplc]
    refine ⟨hre.1, hre.2, ?_⟩
    rw [onAudioReady_plcFlag decodeFn plcFn numFrames s hplay]
    exact hre.1
  · intro decodeFn plcFn numFrames s jb jb1 hlow hjb hdq
    constructor <;> simp [PlaybackCallback.refill, hlow, hjb, hdq]

/-- Witness for C2 (amended): a playing tick dequeues the one buffered
packet, the decoder rejects it, and PLC output `[7, 8]` is appended to
the queue; on an empty buffer the PLC flag stays false. -/
theorem C2_plc_only_on_decode_failure_witness :
    ((PlaybackCallback.refill (fun _ => []) [7, 8] 192
        ⟨true, true, List.replicate 200 5, 199,
         some (RtpJitterBuffer.enqueue (pkt 1) JBState.init)⟩).2 = true ∧
      (PlaybackCallback.refill (fun _ => []) [7, 8] 192
        ⟨true, true, List.replicate 200 5, 199,
         some (RtpJitterBuffer.enqueue (pkt 1) JBState.init)⟩).1.outputBuffer =
        List.replicate 200 5 ++ [7, 8] ∧
      (PlaybackCallback.onAudioReady (fun _ => []) [7, 8] 192
        ⟨true, true, List.replicate 200 5, 199,
         some (RtpJitterBuffer.enqueue (pkt 1) JBState.init)⟩).2.2 = true) ∧
    ((PlaybackCallback.refill (fun _ => []) [7, 8] 192
        ⟨true, true, List.replicate 200 5, 199, some JBState.init⟩).2 = false) :=
  ⟨C2_plc_only_on_decode_failure.1 (fun _ => []) [7, 8] 192
      ⟨true, true, List.replicate 200 5, 199,
       some (RtpJitterBuffer.enqueue (pkt 1) JBState.init)⟩
      (RtpJitterBuffer.enqueue (pkt 1) JBState.init)
      (RtpJitterBuffer.dequeue (RtpJitterBuffer.enqueue (pkt 1) JBState.init)).2
      (pkt 1) 12 rfl rfl (by decide) rfl (by decide) (by decide) rfl,
   (C2_plc_only_on_decode_failure.2 (fun _ => []) [7, 8] 192
      ⟨true, true, List.replicate 200 5, 199, some JBState.init⟩
      JBState.init JBState.init (by decide) rfl (by decide)).1⟩

end MeshRider
